import Mathlib

/-!
Verification development for the docproc_ai backend.

This file gives a shallow embedding, in Lean 4, of the RAG (retrieval-augmented
generation) core of the repository:

* the text chunker used by the ingestion worker
  (`RecursiveCharacterTextSplitter` as configured in
  `backend/workers/rag_ingest_worker/ingestion.py`, `RAGIngestionPipeline.__init__`:
  `chunk_size=1000`, `chunk_overlap=200`, `length_function=len`,
  `separators=["\n\n", "\n", ". ", " ", ""]`, `keep_separator=True`,
  `strip_whitespace=True` — the library defaults for the last two);
* the page-number estimator `RAGIngestionPipeline._estimate_page_number`;
* the chunk-storage loop `RAGIngestionPipeline._embed_and_store_chunks` and the
  pipeline entry point `RAGIngestionPipeline.ingest_document`;
* the vector-similarity retrieval `ChunkRetriever.retrieve_chunks` and the chat
  route `query_documents` from `backend/api_gateway/routes/chat.py`;
* the Pub/Sub worker handlers `process_rag_ingestion`
  (`backend/workers/rag_ingest_worker/main.py`) and `process_ocr`
  (`backend/workers/ocr_worker/main.py`).

External collaborators (GCS download, PyPDF2 text extraction, the Vertex AI
embedding model, the tiktoken tokenizer, the LLM, and pgvector's cosine-distance
operator evaluated inside Postgres) are abstracted as explicit function or
value parameters; everything the repository itself computes is translated
directly from the Python source.

Text is modelled as `List Char`; machine integers are `Nat`/`Int`; the float
arithmetic of `_estimate_page_number` and of the similarity scores is modelled
exactly over `ℚ` (the properties proved are robust to rounding, as noted at
each definition).
-/

namespace DocProc

/-! ## Text chunker

Embedding of langchain's `RecursiveCharacterTextSplitter` as instantiated by
`RAGIngestionPipeline.__init__` (ingestion.py lines 32-37).  The separators are
literal strings (`is_separator_regex=False`, so each separator is
`re.escape`d before use and behaves as plain substring search/split), and
`keep_separator=True`, so each separator occurrence is kept, attached as a
prefix of the following fragment, and chunks are merged with the empty string.
-/

/-- Whether the literal separator occurs anywhere in the text
(Python `re.search(re.escape(sep), text)`). -/
def containsSubstring (sep : List Char) : (text : List Char) → Bool
  | [] => sep.isEmpty
  | c :: rest => sep.isPrefixOf (c :: rest) || containsSubstring sep rest

/-- Loop body of separator selection in `RecursiveCharacterTextSplitter._split_text`:
walk the separator list; an empty separator is chosen unconditionally (with no
separators left below it); otherwise the first separator occurring in the text is
chosen together with the remaining lower-priority separators.  If no separator
matches, the last separator of the original list is used with nothing below it. -/
def chooseSeparatorGo (lastSep : List Char) (text : List Char) :
    List (List Char) → List Char × List (List Char)
  | [] => (lastSep, [])
  | s :: rest =>
    if s.isEmpty then ([], [])
    else if containsSubstring s text then (s, rest)
    else chooseSeparatorGo lastSep text rest

/-- Separator selection of `RecursiveCharacterTextSplitter._split_text`. -/
def chooseSeparator (seps : List (List Char)) (text : List Char) :
    List Char × List (List Char) :=
  chooseSeparatorGo ((seps.getLast?).getD []) text seps

/-- Index of the first occurrence of the (non-empty) literal separator in the
text, if any. -/
def findFirstOccur (sep : List Char) : (text : List Char) → Option Nat
  | [] => none
  | c :: rest =>
    if sep.isPrefixOf (c :: rest) then some 0
    else (findFirstOccur sep rest).map (· + 1)

/-- Split the text at every occurrence of the literal separator, returning the
fragments between occurrences (Python `re.split` on the escaped separator,
without the captured separators).  The fuel argument bounds the number of
occurrences; it is instantiated with `text.length + 1`, which always suffices
because each occurrence of a non-empty separator consumes at least one
character. -/
def splitParts (sep : List Char) : Nat → List Char → List (List Char)
  | 0, text => [text]
  | fuel + 1, text =>
    match findFirstOccur sep text with
    | none => [text]
    | some i => text.take i :: splitParts sep fuel (text.drop (i + sep.length))

/-- Embedding of langchain's `_split_text_with_regex(text, re.escape(separator),
keep_separator=True)`: for the empty separator the text becomes the list of its
characters; otherwise the text is split at each separator occurrence and every
occurrence is re-attached as a prefix of the fragment that follows it
(`_splits = re.split(f"({sep})", text); splits = [_splits[0]] + [sep + t for t
in later fragments]`).  Empty fragments are removed. -/
def splitTextWithSep (separator : List Char) (text : List Char) : List (List Char) :=
  let splits :=
    if separator.isEmpty then
      text.map (fun c => [c])
    else
      match splitParts separator (text.length + 1) text with
      | [] => []
      | t0 :: ts => t0 :: ts.map (fun t => separator ++ t)
  splits.filter (fun s => !s.isEmpty)

/-- Python `str.strip()`: remove leading and trailing whitespace.  (Python's
whitespace set and Lean's `Char.isWhitespace` agree on the ASCII whitespace
characters that can occur in this pipeline's text.) -/
def pyStrip (s : List Char) : List Char :=
  ((s.dropWhile Char.isWhitespace).reverse.dropWhile Char.isWhitespace).reverse

/-- Python `separator.join(docs)`: the fragments concatenated with the
separator between consecutive fragments. -/
def pyJoin (sep : List Char) : List (List Char) → List Char
  | [] => []
  | [d] => d
  | d :: rest => d ++ sep ++ pyJoin sep rest

/-- Embedding of `TextSplitter._join_docs` with `strip_whitespace=True`: join
the accumulated fragments with the separator, strip whitespace, and drop the
chunk entirely if it is empty. -/
def joinDocs (sep : List Char) (docs : List (List Char)) : Option (List Char) :=
  let text := pyStrip (pyJoin sep docs)
  if text.isEmpty then none else some text

/-- Embedding of the pop loop inside `TextSplitter._merge_splits`:

while total > chunk_overlap or (total + len_d + (sep if current_doc else 0) >
chunk_size and total > 0): drop the front fragment of `current_doc` and shrink
`total` by its length (plus a separator length when another fragment remains).

The Python loop indexes `current_doc[0]`, so it can only run while
`current_doc` is non-empty; the `[]` case below is unreachable because `total`
is the joined length of `current_doc` (zero when it is empty). -/
def popLoop (chunkSize chunkOverlap sepLen lenD : Nat) :
    (currentDoc : List (List Char)) → (total : Nat) → List (List Char) × Nat
  | [], total => ([], total)
  | c :: rest, total =>
    if total > chunkOverlap ∨ (total + lenD + sepLen > chunkSize ∧ total > 0) then
      popLoop chunkSize chunkOverlap sepLen lenD rest
        (total - (c.length + if rest.length > 0 then sepLen else 0))
    else (c :: rest, total)

/-- Embedding of the main loop of `TextSplitter._merge_splits`.  State:
`docs` is the emitted chunk list, `currentDoc` the fragments of the chunk being
built, `total` the running joined length maintained by the Python code.  For
each incoming fragment `d`: if adding it would overflow `chunk_size`, the
current fragments are joined and emitted and the window is shrunk with
`popLoop`; in all cases `d` is then appended and `total` updated.  At the end
the remaining fragments are joined into a final chunk. -/
def mergeSplitsAux (chunkSize chunkOverlap : Nat) (sep : List Char) :
    (splits : List (List Char)) → (docs : List (List Char)) →
    (currentDoc : List (List Char)) → (total : Nat) → List (List Char)
  | [], docs, currentDoc, _ =>
    (match joinDocs sep currentDoc with
     | some doc => docs ++ [doc]
     | none => docs)
  | d :: rest, docs, currentDoc, total =>
    let lenD := d.length
    let sepContribution : Nat := if currentDoc.length > 0 then sep.length else 0
    if total + lenD + sepContribution > chunkSize then
      let docs1 :=
        if currentDoc.length > 0 then
          match joinDocs sep currentDoc with
          | some doc => docs ++ [doc]
          | none => docs
        else docs
      let popped :=
        if currentDoc.length > 0 then
          popLoop chunkSize chunkOverlap sep.length lenD currentDoc total
        else (currentDoc, total)
      let newDoc := popped.1 ++ [d]
      mergeSplitsAux chunkSize chunkOverlap sep rest docs1 newDoc
        (popped.2 + lenD + if popped.1.length > 0 then sep.length else 0)
    else
      mergeSplitsAux chunkSize chunkOverlap sep rest docs (currentDoc ++ [d])
        (total + lenD + if currentDoc.length > 0 then sep.length else 0)

/-- Embedding of `TextSplitter._merge_splits`. -/
def mergeSplits (chunkSize chunkOverlap : Nat) (sep : List Char)
    (splits : List (List Char)) : List (List Char) :=
  mergeSplitsAux chunkSize chunkOverlap sep splits [] [] 0

/-- Embedding of the fragment-processing loop of
`RecursiveCharacterTextSplitter._split_text`: fragments strictly shorter than
`chunk_size` are accumulated as good splits; when an oversized fragment is met,
the accumulated good splits are merged and flushed, and the oversized fragment
is either emitted as-is (no lower-priority separators left) or split
recursively; at the end the remaining good splits are merged and flushed. -/
def processSplitsAux (chunkSize : Nat) (mergeFn : List (List Char) → List (List Char))
    (noNewSeps : Bool) (recurse : List Char → List (List Char)) :
    (splits : List (List Char)) → (goodSplits : List (List Char)) → List (List Char)
  | [], goodSplits => if goodSplits.isEmpty then [] else mergeFn goodSplits
  | s :: rest, goodSplits =>
    if s.length < chunkSize then
      processSplitsAux chunkSize mergeFn noNewSeps recurse rest (goodSplits ++ [s])
    else
      (if goodSplits.isEmpty then [] else mergeFn goodSplits)
        ++ (if noNewSeps then [s] else recurse s)
        ++ processSplitsAux chunkSize mergeFn noNewSeps recurse rest []

/-- Embedding of `RecursiveCharacterTextSplitter._split_text(text, separators)`.
Because `keep_separator=True`, the separator passed to `_merge_splits` is the
empty string.  The recursion always descends to a strict suffix of the
separator list, so the separator-list length is used as fuel; the fuel-0 case
is unreachable from `rag_split_text` below (no recursive call is made once the
remaining separator list is empty). -/
def splitTextAux (chunkSize chunkOverlap : Nat) :
    Nat → List (List Char) → List Char → List (List Char)
  | 0, _, text => [text]
  | fuel + 1, seps, text =>
    let chosen := chooseSeparator seps text
    let splits := splitTextWithSep chosen.1 text
    processSplitsAux chunkSize (mergeSplits chunkSize chunkOverlap [])
      chosen.2.isEmpty
      (fun s => splitTextAux chunkSize chunkOverlap fuel chosen.2 s)
      splits []

/-- Separator list configured in `RAGIngestionPipeline.__init__`:
`["\n\n", "\n", ". ", " ", ""]`. -/
def ragSeparators : List (List Char) :=
  [['\n', '\n'], ['\n'], ['.', ' '], [' '], []]

/-- Embedding of `RAGIngestionPipeline._split_text`: the configured splitter
(`chunk_size=1000`, `chunk_overlap=200`) applied to the text. -/
def rag_split_text (text : List Char) : List (List Char) :=
  splitTextAux 1000 200 ragSeparators.length ragSeparators text

/-! ## Page-number estimation

Embedding of the static method `RAGIngestionPipeline._estimate_page_number`
(ingestion.py lines 191-197).  The Python float arithmetic is modelled exactly
over `ℚ`; `int(x)` truncates toward zero, which coincides with the floor on
the non-negative values arising here (quotients of non-negative numbers). -/

/-- Embedding of `RAGIngestionPipeline._estimate_page_number`:
`chunks_per_page = total_chunks / total_pages if total_pages > 0 else 1`;
`estimated_page = int(chunk_index / chunks_per_page) + 1`;
`return min(estimated_page, total_pages)`. -/
def _estimate_page_number (chunk_index total_chunks total_pages : Nat) : Int :=
  let chunks_per_page : ℚ :=
    if total_pages > 0 then (total_chunks : ℚ) / (total_pages : ℚ) else 1
  let estimated_page : Int := ⌊(chunk_index : ℚ) / chunks_per_page⌋ + 1
  min estimated_page (total_pages : Int)

/-! ## Data model

Rows of the tables touched by the RAG core, embedded from
`backend/shared/models.py`: `DocumentChunk` (table `document_chunks`),
`Document`, `AuditLog`, `OCRResult`.  Timestamps are modelled as `Nat` instants
passed to the workers explicitly; embeddings are vectors over `ℚ`; free-form
JSON payloads are flattened to the fields the code actually writes. -/

/-- Row of the `document_chunks` table (models.py `DocumentChunk`).  The `id`
column is generated by the database and never computed by the repository code;
records created by the pipeline carry `id = 0`.  The JSON `metadata` column,
written as `{"page_number": ..., "chunk_size": ...}`, is flattened into the two
fields `page_number` and `chunk_size`. -/
structure DocumentChunk where
  id : Nat
  document_id : String
  tenant_id : String
  chunk_index : Nat
  content : List Char
  token_count : Nat
  embedding : List ℚ
  page_number : Int
  chunk_size : Nat
deriving Repr, DecidableEq

/-- Row of the `documents` table (models.py `Document`), restricted to the
fields the RAG and OCR workers read or write. -/
structure DocumentRec where
  id : String
  tenant_id : String
  user_id : String
  status : String
  error_message : Option String
  processing_started_at : Option Nat
  processing_completed_at : Option Nat
  ocr_completed : Bool
  rag_indexed : Bool
deriving Repr, DecidableEq

/-- Row of the `audit_logs` table (models.py `AuditLog`), restricted to the
identifying fields and the action; the free-form `details` JSON is not
modelled (no claim inspects it). -/
structure AuditLogRec where
  tenant_id : String
  user_id : String
  document_id : String
  action : String
deriving Repr, DecidableEq

/-- Row of the `ocr_results` table (models.py `OCRResult`) as written by the
OCR worker. -/
structure OCRResultRec where
  document_id : String
  tenant_id : String
  extracted_text : List Char
  confidence_score : ℚ
  page_count : Nat
  ocr_method : String
deriving Repr, DecidableEq

/-! ## Ingestion pipeline

Embedding of `RAGIngestionPipeline._embed_and_store_chunks` (ingestion.py
lines 131-184) and `RAGIngestionPipeline.ingest_document` (lines 42-91).
The Vertex AI embedding call `_get_embeddings_batch` and the tiktoken token
counter are external collaborators, passed as the function parameters `embed`
and `tokenCount`.  The PDF text extraction `_extract_text_from_pdf` downloads
from GCS and runs PyPDF2, both external; its two results reaching the rest of
the pipeline — the extracted text and the page count — are passed as
parameters.  The database session's pending-insert list is modelled by
threading the chunk-table state `db` through the functions; `db_session.add`
appends a row, and commits only flush already-appended rows. -/

/-- Statistics dictionary returned by `ingest_document`. -/
structure IngestStats where
  total_chunks : Nat
  stored_chunks : Nat
  total_pages : Nat
  total_characters : Nat
deriving Repr, DecidableEq

/-- The `DocumentChunk` record built for one chunk inside
`_embed_and_store_chunks`: index, content, token count, embedding, and the
metadata fields `page_number` (via `_estimate_page_number`) and `chunk_size`. -/
def mkChunkRecord (tokenCount : List Char → Nat) (document_id tenant_id : String)
    (total_chunks total_pages : Nat) (chunk_index : Nat) (chunk_text : List Char)
    (embedding : List ℚ) : DocumentChunk :=
  { id := 0
    document_id := document_id
    tenant_id := tenant_id
    chunk_index := chunk_index
    content := chunk_text
    token_count := tokenCount chunk_text
    embedding := embedding
    page_number := _estimate_page_number chunk_index total_chunks total_pages
    chunk_size := chunk_text.length }

/-- Embedding of the batch loop of `_embed_and_store_chunks`:
`for i in range(0, len(chunks), batch_size)` with `batch_size = 5`; each batch
`chunks[i:i+5]` is embedded and its records appended (`db_session.add`) with
`chunk_index = i + j` for the j-th chunk of the batch
(`for j, (chunk_text, embedding) in enumerate(zip(batch_chunks, embeddings))`),
incrementing `stored_count` once per record. -/
def embedStoreLoop (embed : List Char → List ℚ) (tokenCount : List Char → Nat)
    (chunks : List (List Char)) (document_id tenant_id : String) (page_count : Nat)
    (i : Nat) (db : List DocumentChunk) (stored : Nat) : List DocumentChunk × Nat :=
  if _h : i < chunks.length then
    let batch := (chunks.drop i).take 5
    let recs := batch.mapIdx (fun j t =>
      mkChunkRecord tokenCount document_id tenant_id chunks.length page_count
        (i + j) t (embed t))
    embedStoreLoop embed tokenCount chunks document_id tenant_id page_count
      (i + 5) (db ++ recs) (stored + batch.length)
  else (db, stored)
termination_by chunks.length - i
decreasing_by omega

/-- Embedding of `RAGIngestionPipeline._embed_and_store_chunks`: run the batch
loop from `i = 0` with `stored_count = 0`; returns the new chunk-table state
and the stored count. -/
def _embed_and_store_chunks (embed : List Char → List ℚ) (tokenCount : List Char → Nat)
    (chunks : List (List Char)) (document_id tenant_id : String)
    (db : List DocumentChunk) (page_count : Nat) : List DocumentChunk × Nat :=
  embedStoreLoop embed tokenCount chunks document_id tenant_id page_count 0 db 0

/-- Embedding of `RAGIngestionPipeline.ingest_document`: split the extracted
text into chunks, embed and store them, and return the statistics dictionary
`{"total_chunks": len(chunks), "stored_chunks": stored_count, "total_pages":
metadata["page_count"], "total_characters": len(text)}`.  The parameters
`text` and `page_count` are the outputs of the external
`_extract_text_from_pdf` step. -/
def ingest_document (embed : List Char → List ℚ) (tokenCount : List Char → Nat)
    (text : List Char) (page_count : Nat) (document_id tenant_id : String)
    (db : List DocumentChunk) : List DocumentChunk × IngestStats :=
  let chunks := rag_split_text text
  let stored := _embed_and_store_chunks embed tokenCount chunks document_id tenant_id db page_count
  (stored.1,
   { total_chunks := chunks.length
     stored_chunks := stored.2
     total_pages := page_count
     total_characters := text.length })

/-! ## Retrieval

Embedding of `ChunkRetriever.retrieve_chunks` (ingestion.py lines 207-283)
and of the retrieval part of the chat route `query_documents`
(`backend/api_gateway/routes/chat.py` lines 68-141).  Both run the same SQL
query over `document_chunks`:

WHERE `tenant_id = :tenant_id` (always), AND `document_id IN (...)` only when
the caller supplied a non-empty document-id list (Python truthiness of the
optional argument), ORDER BY `embedding <=> :query_vector` ascending, LIMIT
`max_chunks`, selecting `1 - (embedding <=> :query_vector)` as `similarity`.

The pgvector cosine-distance operator evaluated inside Postgres and the
external embedding of the query text are modelled together by the parameter
`dist : List ℚ → ℚ`, the distance of a stored embedding to the fixed query
vector.  The ORDER BY is modelled with a merge sort on that distance
(Postgres guarantees the order only up to ties). -/

/-- Python truthiness of the optional document-id filter argument
(`if document_ids:` / `if request.document_ids:`): an absent filter and an
empty list are both falsy. -/
def docFilterActive : Option (List String) → Bool
  | none => false
  | some ids => !ids.isEmpty

/-- The WHERE clause of the similarity-search query: the mandatory tenant
filter, and the document filter only when the supplied list is truthy. -/
def chunkMatches (tenant_id : String) (document_ids : Option (List String))
    (c : DocumentChunk) : Bool :=
  c.tenant_id == tenant_id &&
    (if docFilterActive document_ids then (document_ids.getD []).contains c.document_id
     else true)

/-- The rows returned by the similarity-search SQL shared by
`ChunkRetriever.retrieve_chunks` and `query_documents`: filter by tenant and
optional document list, order by distance to the query vector ascending,
limit to `max_chunks`. -/
def similaritySearchRows (dist : List ℚ → ℚ) (db : List DocumentChunk)
    (tenant_id : String) (document_ids : Option (List String)) (max_chunks : Nat) :
    List DocumentChunk :=
  (((db.filter (chunkMatches tenant_id document_ids)).mergeSort
      (fun a b => decide (dist a.embedding ≤ dist b.embedding))).take max_chunks)

/-- One formatted result dictionary of `retrieve_chunks` (ingestion.py lines
268-281).  The `metadata` passthrough column and the derived
`relevance_score = round(similarity * 100, 1)` are not separately modelled:
the former is opaque and the latter is a float-rounding presentation of the
`similarity` field that no claim inspects. -/
structure RetrievedChunk where
  id : Nat
  document_id : String
  chunk_index : Nat
  content : List Char
  similarity : ℚ
deriving Repr, DecidableEq

/-- Formatting of one SQL row by `retrieve_chunks`, with
`similarity = 1 - (embedding <=> query_vector)`. -/
def formatChunk (dist : List ℚ → ℚ) (c : DocumentChunk) : RetrievedChunk :=
  { id := c.id
    document_id := c.document_id
    chunk_index := c.chunk_index
    content := c.content
    similarity := 1 - dist c.embedding }

/-- Embedding of `ChunkRetriever.retrieve_chunks`: run the similarity search
and format each row; an empty row set yields the empty list (the
`for row in results` loop simply does not run). -/
def retrieve_chunks (dist : List ℚ → ℚ) (db : List DocumentChunk)
    (tenant_id : String) (document_ids : Option (List String)) (max_chunks : Nat) :
    List RetrievedChunk :=
  (similaritySearchRows dist db tenant_id document_ids max_chunks).map (formatChunk dist)

/-- One element of the `sources` list built by `query_documents` (chat.py
lines 125-136): the content is truncated to a 200-character preview with an
ellipsis when longer.  The float-rounded `relevance_score` duplicates the
similarity information and is modelled by the exact `similarity` value. -/
structure ChatSource where
  document_id : String
  chunk_index : Nat
  content : List Char
  similarity : ℚ
deriving Repr, DecidableEq

/-- Formatting of one SQL row into a `ChatSource` by `query_documents`. -/
def formatSource (dist : List ℚ → ℚ) (c : DocumentChunk) : ChatSource :=
  { document_id := c.document_id
    chunk_index := c.chunk_index
    content := if c.content.length > 200 then c.content.take 200 ++ "...".toList
               else c.content
    similarity := 1 - dist c.embedding }

/-- Embedding of the retrieval part of the chat route `query_documents`
(chat.py lines 85-136): the same similarity-search SQL, except that an empty
row set raises `HTTPException(status_code=404, detail="No relevant documents
found. Please index documents first.")`.  The subsequent LLM answer
generation is an external call that consumes the sources; the route's
retrieval outcome is the sources list. -/
def query_documents (dist : List ℚ → ℚ) (db : List DocumentChunk)
    (tenant_id : String) (document_ids : Option (List String)) (max_chunks : Nat) :
    Except (Nat × String) (List ChatSource) :=
  let results := similaritySearchRows dist db tenant_id document_ids max_chunks
  if results.isEmpty then
    Except.error (404, "No relevant documents found. Please index documents first.")
  else
    Except.ok (results.map (formatSource dist))

/-! ## Worker handlers

Embedding of the Pub/Sub push handlers `process_rag_ingestion`
(rag_ingest_worker/main.py lines 28-125) and `process_ocr`
(ocr_worker/main.py lines 27-104).  The message has already been
base64-decoded and parsed; the stage work (`pipeline.ingest_document`
resp. `ocr_processor.process_document`, both reaching external services) is
passed as an `Except` parameter: `Except.error e` models the stage raising an
exception with message `e`.  The two timestamps taken with
`datetime.utcnow()` are the parameters `now_started` and `now_completed`.
The returned `Nat` is the HTTP status of the response (200 on success, the
`HTTPException(status_code=500)` re-raised to the transport otherwise). -/

/-- Parsed Pub/Sub job message fields used by both workers. -/
structure JobMessage where
  tenant_id : String
  user_id : String
  document_id : String
  gcs_path : String
deriving Repr, DecidableEq

/-- Update every document row matching the given id (the SQLAlchemy
`db.query(Document).filter(Document.id == document_id).first()` object is
mutated in place and committed). -/
def updateDoc (docs : List DocumentRec) (id : String)
    (f : DocumentRec → DocumentRec) : List DocumentRec :=
  docs.map (fun d => if d.id == id then f d else d)

/-- The status update both workers perform when picking up a job
(rag_ingest_worker/main.py lines 68-70, ocr_worker/main.py lines 51-53):
`document.status = "processing"; document.processing_started_at =
datetime.utcnow(); db.commit()`.  No other field is written. -/
def mark_document_processing (doc : DocumentRec) (now : Nat) : DocumentRec :=
  { doc with status := "processing", processing_started_at := some now }

/-- The failure-path update both workers perform in their `except` blocks
(rag_ingest_worker/main.py lines 112-116, ocr_worker/main.py lines 99-102):
`document.status = "failed"; document.error_message = str(e);
document.processing_completed_at = datetime.utcnow(); db.commit()`. -/
def mark_document_failed (doc : DocumentRec) (e : String) (now : Nat) : DocumentRec :=
  { doc with status := "failed", error_message := some e,
             processing_completed_at := some now }

/-- Embedding of `process_rag_ingestion`.  Returns the document table, the
audit-log table, and the HTTP status.  If no document row matches, the inner
`ValueError` escapes (the `except` block itself fails on the `None` document
object) and the handler answers 500 with no row touched.  Otherwise the row is
marked processing, the pipeline runs: on success the row is marked completed
with `rag_indexed = True` and one `AuditLog(action="rag_indexed")` is added;
on an exception the row is marked failed and the handler answers 500 —
no audit row is added on this path. -/
def process_rag_ingestion (msg : JobMessage) (ingest_outcome : Except String IngestStats)
    (now_started now_completed : Nat) (docs : List DocumentRec)
    (audit : List AuditLogRec) : List DocumentRec × List AuditLogRec × Nat :=
  match docs.find? (fun d => d.id == msg.document_id) with
  | none => (docs, audit, 500)
  | some _ =>
    let docs1 := updateDoc docs msg.document_id (fun d => mark_document_processing d now_started)
    match ingest_outcome with
    | Except.ok _stats =>
      let docs2 := updateDoc docs1 msg.document_id (fun d =>
        { d with status := "completed", rag_indexed := true,
                 processing_completed_at := some now_completed })
      (docs2,
       audit ++ [{ tenant_id := msg.tenant_id, user_id := msg.user_id,
                   document_id := msg.document_id, action := "rag_indexed" }],
       200)
    | Except.error e =>
      (updateDoc docs1 msg.document_id (fun d => mark_document_failed d e now_completed),
       audit, 500)

/-- Result of the external OCR processor `ocr_processor.process_document`. -/
structure OCRData where
  extracted_text : List Char
  confidence_score : ℚ
  page_count : Nat
  ocr_method : String
deriving Repr, DecidableEq

/-- Embedding of `process_ocr`, structured exactly like
`process_rag_ingestion`: on success an `OCRResult` row is added, the document
is marked completed with `ocr_completed = True`, and one
`AuditLog(action="ocr_completed")` is added; on an exception the document is
marked failed and the handler answers 500 with no audit row added. -/
def process_ocr (msg : JobMessage) (ocr_outcome : Except String OCRData)
    (now_started now_completed : Nat) (docs : List DocumentRec)
    (ocr_results : List OCRResultRec) (audit : List AuditLogRec) :
    List DocumentRec × List OCRResultRec × List AuditLogRec × Nat :=
  match docs.find? (fun d => d.id == msg.document_id) with
  | none => (docs, ocr_results, audit, 500)
  | some _ =>
    let docs1 := updateDoc docs msg.document_id (fun d => mark_document_processing d now_started)
    match ocr_outcome with
    | Except.ok result =>
      let docs2 := updateDoc docs1 msg.document_id (fun d =>
        { d with status := "completed", ocr_completed := true,
                 processing_completed_at := some now_completed })
      (docs2,
       ocr_results ++ [{ document_id := msg.document_id, tenant_id := msg.tenant_id,
                         extracted_text := result.extracted_text,
                         confidence_score := result.confidence_score,
                         page_count := result.page_count,
                         ocr_method := result.ocr_method }],
       audit ++ [{ tenant_id := msg.tenant_id, user_id := msg.user_id,
                   document_id := msg.document_id, action := "ocr_completed" }],
       200)
    | Except.error e =>
      (updateDoc docs1 msg.document_id (fun d => mark_document_failed d e now_completed),
       ocr_results, audit, 500)

/-! ## Concrete fixtures

Small concrete instances used by witness and counterexample theorems. -/

/-- A concrete distance function: the first coordinate of the stored
embedding (any fixed query point induces some such function). -/
def exDist : List ℚ → ℚ := fun e => e.headD 0

/-- A concrete stored chunk. -/
def exChunk (did tid : String) (idx : Nat) (d : ℚ) : DocumentChunk :=
  { id := idx, document_id := did, tenant_id := tid, chunk_index := idx,
    content := ['x'], token_count := 1, embedding := [d], page_number := 1,
    chunk_size := 1 }

/-- A tenant with exactly three indexed chunks. -/
def exDb3 : List DocumentChunk :=
  [exChunk "d1" "t1" 0 3, exChunk "d1" "t1" 1 1, exChunk "d2" "t1" 2 2]

/-- The three chunks of tenant t1 together with one chunk of another tenant. -/
def exDbMixed : List DocumentChunk :=
  exDb3 ++ [exChunk "d3" "t2" 3 0]

/-- A concrete job message. -/
def exMsg : JobMessage :=
  { tenant_id := "t1", user_id := "u1", document_id := "doc1", gcs_path := "gs://b/p" }

/-- A concrete document row carrying a stale error message from a previous
failed attempt. -/
def exDoc : DocumentRec :=
  { id := "doc1", tenant_id := "t1", user_id := "u1", status := "failed",
    error_message := some "previous failure", processing_started_at := some 0,
    processing_completed_at := some 0, ocr_completed := false, rag_indexed := false }

/-- A concrete embedding function for witnesses. -/
def exEmbed : List Char → List ℚ := fun _ => [1]

/-- A concrete token counter for witnesses. -/
def exTok : List Char → Nat := fun t => t.length

/-! ## Helper lemmas -/

/-- The Boolean comparison used to model the ORDER BY is transitive. -/
theorem distLe_trans (dist : List ℚ → ℚ) (a b c : DocumentChunk)
    (h1 : decide (dist a.embedding ≤ dist b.embedding) = true)
    (h2 : decide (dist b.embedding ≤ dist c.embedding) = true) :
    decide (dist a.embedding ≤ dist c.embedding) = true := by
  simp only [decide_eq_true_eq] at *
  exact le_trans h1 h2

/-- The Boolean comparison used to model the ORDER BY is total. -/
theorem distLe_total (dist : List ℚ → ℚ) (a b : DocumentChunk) :
    (decide (dist a.embedding ≤ dist b.embedding)
      || decide (dist b.embedding ≤ dist a.embedding)) = true := by
  simp only [Bool.or_eq_true, decide_eq_true_eq]
  exact le_total _ _

/-- Every row produced by the similarity search comes from the table and
satisfies the WHERE clause. -/
theorem mem_similaritySearchRows {dist : List ℚ → ℚ} {db : List DocumentChunk}
    {tenant_id : String} {document_ids : Option (List String)} {max_chunks : Nat}
    {c : DocumentChunk}
    (h : c ∈ similaritySearchRows dist db tenant_id document_ids max_chunks) :
    c ∈ db ∧ chunkMatches tenant_id document_ids c = true := by
  unfold similaritySearchRows at h
  have h1 := (List.take_sublist _ _).subset h
  rw [List.mem_mergeSort, List.mem_filter] at h1
  exact h1

/-- A row satisfying the WHERE clause belongs to the query's tenant. -/
theorem chunkMatches_tenant {tenant_id : String} {document_ids : Option (List String)}
    {c : DocumentChunk} (h : chunkMatches tenant_id document_ids c = true) :
    c.tenant_id = tenant_id := by
  unfold chunkMatches at h
  exact eq_of_beq (Bool.and_elim_left h)

/-- The similarity search returns its rows ordered by distance ascending. -/
theorem pairwise_similaritySearchRows (dist : List ℚ → ℚ) (db : List DocumentChunk)
    (tenant_id : String) (document_ids : Option (List String)) (max_chunks : Nat) :
    (similaritySearchRows dist db tenant_id document_ids max_chunks).Pairwise
      (fun a b => dist a.embedding ≤ dist b.embedding) := by
  unfold similaritySearchRows
  have hs := @List.sorted_mergeSort DocumentChunk
    (fun a b => decide (dist a.embedding ≤ dist b.embedding))
    (distLe_trans dist) (distLe_total dist)
    (db.filter (chunkMatches tenant_id document_ids))
  exact ((hs.sublist (List.take_sublist _ _)).imp (fun h => by
    simpa only [decide_eq_true_eq] using h))

/-- The similarity search returns `min max_chunks n` rows, where `n` is the
number of rows matching the WHERE clause. -/
theorem length_similaritySearchRows (dist : List ℚ → ℚ) (db : List DocumentChunk)
    (tenant_id : String) (document_ids : Option (List String)) (max_chunks : Nat) :
    (similaritySearchRows dist db tenant_id document_ids max_chunks).length =
      min max_chunks (db.filter (chunkMatches tenant_id document_ids)).length := by
  unfold similaritySearchRows
  rw [List.length_take, List.length_mergeSort]

/-! ## Claim theorems -/

/-- Claim C1: every chunk returned by a retrieval call — through
`ChunkRetriever.retrieve_chunks` or through the chat route `query_documents` —
comes from a stored chunk whose `tenant_id` equals the query's tenant, whether
or not a document-id filter is supplied. -/
theorem docproc_C1 (dist : List ℚ → ℚ) (db : List DocumentChunk) (tenant_id : String)
    (document_ids : Option (List String)) (max_chunks : Nat) :
    (∀ r ∈ retrieve_chunks dist db tenant_id document_ids max_chunks,
      ∃ c, c ∈ db ∧ c.tenant_id = tenant_id ∧ r = formatChunk dist c) ∧
    (∀ srcs, query_documents dist db tenant_id document_ids max_chunks = Except.ok srcs →
      ∀ s ∈ srcs, ∃ c, c ∈ db ∧ c.tenant_id = tenant_id ∧ s = formatSource dist c) := by
  constructor
  · intro r hr
    unfold retrieve_chunks at hr
    obtain ⟨c, hc, rfl⟩ := List.mem_map.mp hr
    obtain ⟨hmem, hmatch⟩ := mem_similaritySearchRows hc
    exact ⟨c, hmem, chunkMatches_tenant hmatch, rfl⟩
  · intro srcs hok s hs
    unfold query_documents at hok
    by_cases he : (similaritySearchRows dist db tenant_id document_ids max_chunks).isEmpty
    · simp only [he, if_true] at hok
      exact absurd hok (by simp)
    · simp only [he, if_false, Bool.false_eq_true, Except.ok.injEq] at hok
      subst hok
      obtain ⟨c, hc, rfl⟩ := List.mem_map.mp hs
      obtain ⟨hmem, hmatch⟩ := mem_similaritySearchRows hc
      exact ⟨c, hmem, chunkMatches_tenant hmatch, rfl⟩

/-- Witness for C1 at a concrete input: a result of a query over a mixed
two-tenant table comes from a stored chunk of the query's tenant. -/
theorem docproc_C1_witness :
    ∃ c, c ∈ exDbMixed ∧ c.tenant_id = "t1" ∧
      formatChunk exDist (exChunk "d1" "t1" 1 1) = formatChunk exDist c := by
  have hr : formatChunk exDist (exChunk "d1" "t1" 1 1) ∈
      retrieve_chunks exDist exDbMixed "t1" none 5 := by
    unfold retrieve_chunks similaritySearchRows
    rw [List.take_of_length_le (by rw [List.length_mergeSort]; decide)]
    exact List.mem_map.mpr ⟨exChunk "d1" "t1" 1 1, List.mem_mergeSort.mpr (by decide), rfl⟩
  exact (docproc_C1 exDist exDbMixed "t1" none 5).1
    (formatChunk exDist (exChunk "d1" "t1" 1 1)) hr

/-- Claim C4 fails on the code as stated: at the chat route, a query over an
empty corpus does not surface an empty result — `query_documents` raises
`HTTPException(404)`. -/
theorem docproc_C4_counterexample :
    query_documents exDist [] "t1" none 5 =
      Except.error (404, "No relevant documents found. Please index documents first.") := by
  unfold query_documents similaritySearchRows
  simp

/-- Claim C4 as amended: when no stored chunk matches the query (empty tenant
corpus or empty filter result), `ChunkRetriever.retrieve_chunks` returns the
empty list as a non-error outcome, but the chat route `query_documents`
signals failure, raising an HTTP 404 error instead of returning the empty
result. -/
theorem docproc_C4 (dist : List ℚ → ℚ) (db : List DocumentChunk) (tenant_id : String)
    (document_ids : Option (List String)) (max_chunks : Nat)
    (h : ∀ c ∈ db, chunkMatches tenant_id document_ids c = false) :
    retrieve_chunks dist db tenant_id document_ids max_chunks = [] ∧
    query_documents dist db tenant_id document_ids max_chunks =
      Except.error (404, "No relevant documents found. Please index documents first.") := by
  have hrows : similaritySearchRows dist db tenant_id document_ids max_chunks = [] := by
    unfold similaritySearchRows
    rw [List.filter_eq_nil_iff.mpr (fun a ha => by rw [h a ha]; simp),
      List.mergeSort_nil, List.take_nil]
  constructor
  · unfold retrieve_chunks
    rw [hrows]
    rfl
  · unfold query_documents
    rw [hrows]
    rfl

/-- Witness for C4 (amended) at a concrete input: a table holding only another
tenant's chunk. -/
theorem docproc_C4_witness :
    retrieve_chunks exDist [exChunk "d3" "t2" 3 0] "t1" none 5 = [] ∧
    query_documents exDist [exChunk "d3" "t2" 3 0] "t1" none 5 =
      Except.error (404, "No relevant documents found. Please index documents first.") :=
  docproc_C4 exDist [exChunk "d3" "t2" 3 0] "t1" none 5 (by decide)

/-- Claim C7: retrieval results are ordered by similarity descending, where
`similarity = 1 - cosine_distance`, the result length never exceeds
`max_results`, and a query with `max_results = 5` over a tenant with exactly 3
matching chunks returns exactly 3 results. -/
theorem docproc_C7 (dist : List ℚ → ℚ) (db : List DocumentChunk) (tenant_id : String)
    (document_ids : Option (List String)) (max_chunks : Nat) :
    (retrieve_chunks dist db tenant_id document_ids max_chunks).Pairwise
      (fun a b => b.similarity ≤ a.similarity) ∧
    (retrieve_chunks dist db tenant_id document_ids max_chunks).length ≤ max_chunks ∧
    ((db.filter (chunkMatches tenant_id document_ids)).length = 3 → max_chunks = 5 →
      (retrieve_chunks dist db tenant_id document_ids max_chunks).length = 3) := by
  refine ⟨?_, ?_, ?_⟩
  · unfold retrieve_chunks
    rw [List.pairwise_map]
    exact (pairwise_similaritySearchRows dist db tenant_id document_ids max_chunks).imp
      (fun h => sub_le_sub_left h 1)
  · unfold retrieve_chunks
    rw [List.length_map, length_similaritySearchRows]
    exact min_le_left _ _
  · intro h3 h5
    subst h5
    unfold retrieve_chunks
    rw [List.length_map, length_similaritySearchRows, h3]
    decide

/-- Witness for C7 at a concrete input: `max_results = 5` against a tenant
with exactly 3 indexed chunks returns exactly 3 results. -/
theorem docproc_C7_witness :
    (exDb3.filter (chunkMatches "t1" none)).length = 3 ∧
    (retrieve_chunks exDist exDb3 "t1" none 5).length = 3 :=
  ⟨by decide, (docproc_C7 exDist exDb3 "t1" none 5).2.2 (by decide) rfl⟩

/-- Claim C9: for a chunk index within range and at least one page, the
estimated page number lies in `[1, total_pages]`; with zero total pages the
function returns 0 instead of failing. -/
theorem docproc_C9 (chunk_index total_chunks total_pages : Nat)
    (_h1 : chunk_index < total_chunks) (h2 : 1 ≤ total_pages) :
    1 ≤ _estimate_page_number chunk_index total_chunks total_pages ∧
    _estimate_page_number chunk_index total_chunks total_pages ≤ (total_pages : Int) ∧
    _estimate_page_number chunk_index total_chunks 0 = 0 := by
  have key : _estimate_page_number chunk_index total_chunks total_pages =
      min (⌊(chunk_index : ℚ) / ((total_chunks : ℚ) / (total_pages : ℚ))⌋ + 1)
        (total_pages : Int) := by
    simp only [_estimate_page_number, gt_iff_lt]
    rw [if_pos (by omega : 0 < total_pages)]
  have key0 : _estimate_page_number chunk_index total_chunks 0 = 0 := by
    simp only [_estimate_page_number, gt_iff_lt]
    rw [if_neg (by omega : ¬ ((0:Nat) < 0)), div_one, Int.floor_natCast]
    simp only [Nat.cast_zero]
    omega
  refine ⟨?_, ?_, key0⟩
  · rw [key]
    apply le_min
    · have h0 : (0:ℚ) ≤ (chunk_index : ℚ) / ((total_chunks : ℚ) / (total_pages : ℚ)) := by
        positivity
      have := Int.floor_nonneg.mpr h0
      omega
    · exact_mod_cast h2
  · rw [key]
    exact min_le_right _ _

/-- Witness for C9 at a concrete input. -/
theorem docproc_C9_witness :
    0 < 1 ∧
    (1 ≤ _estimate_page_number 0 1 1 ∧
     _estimate_page_number 0 1 1 ≤ (1 : Int) ∧
     _estimate_page_number 0 1 0 = 0) :=
  ⟨by decide, docproc_C9 0 1 1 (by decide) (by decide)⟩

/-- Membership in an updated document table: every row either is the update of
a matching original row, or is an untouched non-matching original row. -/
theorem updateDoc_mem {docs : List DocumentRec} {id : String} {f : DocumentRec → DocumentRec}
    {d : DocumentRec} (h : d ∈ updateDoc docs id f) :
    (∃ d0 ∈ docs, d0.id = id ∧ d = f d0) ∨ (d ∈ docs ∧ d.id ≠ id) := by
  unfold updateDoc at h
  obtain ⟨d0, hd0, hd⟩ := List.mem_map.mp h
  by_cases hid : d0.id == id
  · exact Or.inl ⟨d0, hd0, eq_of_beq hid, by rw [← hd, if_pos hid]⟩
  · refine Or.inr ⟨?_, ?_⟩
    · rw [← hd, if_neg hid]
      exact hd0
    · rw [← hd, if_neg hid]
      simpa using hid

/-- Claim C10: supplying the document-id filter as an empty list behaves
identically to supplying no filter at all, both in
`ChunkRetriever.retrieve_chunks` and in the chat route `query_documents`
(Python truthiness of the filter argument). -/
theorem docproc_C10 (dist : List ℚ → ℚ) (db : List DocumentChunk) (tenant_id : String)
    (max_chunks : Nat) :
    retrieve_chunks dist db tenant_id (some []) max_chunks =
      retrieve_chunks dist db tenant_id none max_chunks ∧
    query_documents dist db tenant_id (some []) max_chunks =
      query_documents dist db tenant_id none max_chunks :=
  ⟨rfl, rfl⟩

/-- Witness for C10 at a concrete input. -/
theorem docproc_C10_witness :
    retrieve_chunks exDist exDb3 "t1" (some []) 5 =
      retrieve_chunks exDist exDb3 "t1" none 5 :=
  (docproc_C10 exDist exDb3 "t1" 5).1

/-- Claim C3 fails as stated: when the stage work raises after the document
was found, the worker records no audit event at all on the failure path —
here a failing run starting from an empty audit log leaves it empty, not
holding exactly one failure event. -/
theorem docproc_C3_counterexample :
    (process_rag_ingestion exMsg (Except.error "boom") 1 2 [exDoc] []).2.1 = [] ∧
    (process_ocr exMsg (Except.error "boom") 1 2 [exDoc] [] []).2.2.1 = [] :=
  ⟨rfl, rfl⟩

/-- Claim C3 as amended: for every job whose stage execution raises after the
document record was found, both workers leave the document with
`status = "failed"`, `error_message` set to the exception message (non-null),
and `processing_completed_at` set, never in status `"processing"`, and answer
HTTP 500 to the transport — but no audit event is recorded on the failure
path (the audit log is returned unchanged). -/
theorem docproc_C3 :
    (∀ (msg : JobMessage) (e : String) (n1 n2 : Nat) (docs : List DocumentRec)
       (audit : List AuditLogRec),
      (docs.find? (fun d => d.id == msg.document_id)).isSome →
      ((∀ d' ∈ (process_rag_ingestion msg (Except.error e) n1 n2 docs audit).1,
          d'.id = msg.document_id →
          d'.status = "failed" ∧ d'.error_message = some e ∧
          d'.processing_completed_at = some n2 ∧ d'.status ≠ "processing") ∧
       (process_rag_ingestion msg (Except.error e) n1 n2 docs audit).2.1 = audit ∧
       (process_rag_ingestion msg (Except.error e) n1 n2 docs audit).2.2 = 500)) ∧
    (∀ (msg : JobMessage) (e : String) (n1 n2 : Nat) (docs : List DocumentRec)
       (ocr_results : List OCRResultRec) (audit : List AuditLogRec),
      (docs.find? (fun d => d.id == msg.document_id)).isSome →
      ((∀ d' ∈ (process_ocr msg (Except.error e) n1 n2 docs ocr_results audit).1,
          d'.id = msg.document_id →
          d'.status = "failed" ∧ d'.error_message = some e ∧
          d'.processing_completed_at = some n2 ∧ d'.status ≠ "processing") ∧
       (process_ocr msg (Except.error e) n1 n2 docs ocr_results audit).2.2.1 = audit ∧
       (process_ocr msg (Except.error e) n1 n2 docs ocr_results audit).2.2.2 = 500)) := by
  constructor
  · intro msg e n1 n2 docs audit hsome
    obtain ⟨d0, hfind⟩ := Option.isSome_iff_exists.mp hsome
    unfold process_rag_ingestion
    rw [hfind]
    refine ⟨?_, rfl, rfl⟩
    intro d' hd' hid
    rcases updateDoc_mem hd' with ⟨d1, _, _, rfl⟩ | ⟨_, hne⟩
    · refine ⟨rfl, rfl, rfl, ?_⟩
      show ("failed" : String) ≠ "processing"
      decide
    · exact absurd hid hne
  · intro msg e n1 n2 docs ocr_results audit hsome
    obtain ⟨d0, hfind⟩ := Option.isSome_iff_exists.mp hsome
    unfold process_ocr
    rw [hfind]
    refine ⟨?_, rfl, rfl⟩
    intro d' hd' hid
    rcases updateDoc_mem hd' with ⟨d1, _, _, rfl⟩ | ⟨_, hne⟩
    · refine ⟨rfl, rfl, rfl, ?_⟩
      show ("failed" : String) ≠ "processing"
      decide
    · exact absurd hid hne

/-- Witness for C3 (amended) at a concrete input. -/
theorem docproc_C3_witness :
    (process_rag_ingestion exMsg (Except.error "boom") 1 2 [exDoc] []).2.2 = 500 ∧
    (process_ocr exMsg (Except.error "boom") 1 2 [exDoc] [] []).2.2.2 = 500 :=
  ⟨(docproc_C3.1 exMsg "boom" 1 2 [exDoc] [] (by decide)).2.2,
   (docproc_C3.2 exMsg "boom" 1 2 [exDoc] [] [] (by decide)).2.2⟩

/-- Claim C6 fails as stated: picking up a job sets the status to
`"processing"` but does not clear `error_message` — a stale message from a
previous failed attempt survives the pickup. -/
theorem docproc_C6_counterexample :
    (mark_document_processing exDoc 5).error_message = some "previous failure" ∧
    (mark_document_processing exDoc 5).error_message ≠ none :=
  ⟨rfl, by decide⟩

/-- Auxiliary: an update that does not touch the error_message field leaves
the error_message column of the document table unchanged. -/
theorem updateDoc_error_message {docs : List DocumentRec} {id : String}
    {f : DocumentRec → DocumentRec} (hf : ∀ d, (f d).error_message = d.error_message) :
    (updateDoc docs id f).map (fun d => d.error_message) =
      docs.map (fun d => d.error_message) := by
  unfold updateDoc
  rw [List.map_map]
  apply List.map_congr_left
  intro d _
  simp only [Function.comp_apply]
  by_cases h : d.id == id
  · rw [if_pos h]
    exact hf d
  · rw [if_neg h]

/-- Auxiliary: two successive such updates also leave the error_message column
unchanged. -/
theorem updateDoc2_error_message {docs : List DocumentRec} {id : String}
    (f1 f2 : DocumentRec → DocumentRec)
    (h1 : ∀ d, (f1 d).error_message = d.error_message)
    (h2 : ∀ d, (f2 d).error_message = d.error_message) :
    (updateDoc (updateDoc docs id f1) id f2).map (fun d => d.error_message) =
      docs.map (fun d => d.error_message) :=
  (updateDoc_error_message h2).trans (updateDoc_error_message h1)

/-- Claim C6 as amended: when a worker picks up a job it resets the document's
status to `"processing"` and records `processing_started_at`, but it does not
clear `error_message` — the field is carried over unchanged; indeed the whole
successful handler run of either worker leaves the `error_message` column of
the document table untouched. -/
theorem docproc_C6 :
    (∀ (doc : DocumentRec) (now : Nat),
      (mark_document_processing doc now).status = "processing" ∧
      (mark_document_processing doc now).processing_started_at = some now ∧
      (mark_document_processing doc now).error_message = doc.error_message) ∧
    (∀ (msg : JobMessage) (stats : IngestStats) (n1 n2 : Nat)
       (docs : List DocumentRec) (audit : List AuditLogRec),
      (process_rag_ingestion msg (Except.ok stats) n1 n2 docs audit).1.map
          (fun d => d.error_message) =
        docs.map (fun d => d.error_message)) ∧
    (∀ (msg : JobMessage) (result : OCRData) (n1 n2 : Nat)
       (docs : List DocumentRec) (ocr_results : List OCRResultRec)
       (audit : List AuditLogRec),
      (process_ocr msg (Except.ok result) n1 n2 docs ocr_results audit).1.map
          (fun d => d.error_message) =
        docs.map (fun d => d.error_message)) := by
  refine ⟨fun doc now => ⟨rfl, rfl, rfl⟩, ?_, ?_⟩
  · intro msg stats n1 n2 docs audit
    unfold process_rag_ingestion
    cases hfind : docs.find? (fun d => d.id == msg.document_id) with
    | none => rfl
    | some d0 =>
      exact updateDoc2_error_message _ _ (fun d => rfl) (fun d => rfl)
  · intro msg result n1 n2 docs ocr_results audit
    unfold process_ocr
    cases hfind : docs.find? (fun d => d.id == msg.document_id) with
    | none => rfl
    | some d0 =>
      exact updateDoc2_error_message _ _ (fun d => rfl) (fun d => rfl)

/-- Witness for C6 (amended) at a concrete input. -/
theorem docproc_C6_witness :
    (mark_document_processing exDoc 5).status = "processing" ∧
    (mark_document_processing exDoc 5).error_message = exDoc.error_message :=
  ⟨(docproc_C6.1 exDoc 5).1, (docproc_C6.1 exDoc 5).2.2⟩

/-- Closed form of the batched storage loop: starting at index `i`, it appends
one record per remaining chunk, with `chunk_index` continuing from `i`, and
adds the number of remaining chunks to the stored count. -/
theorem embedStoreLoop_spec (E : List Char → List ℚ) (T : List Char → Nat)
    (chunks : List (List Char)) (doc ten : String) (pc : Nat) :
    ∀ i db stored, embedStoreLoop E T chunks doc ten pc i db stored =
      (db ++ (chunks.drop i).mapIdx
          (fun j t => mkChunkRecord T doc ten chunks.length pc (i + j) t (E t)),
       stored + (chunks.length - i)) := by
  suffices H : ∀ n i db stored, chunks.length - i ≤ n →
      embedStoreLoop E T chunks doc ten pc i db stored =
        (db ++ (chunks.drop i).mapIdx
            (fun j t => mkChunkRecord T doc ten chunks.length pc (i + j) t (E t)),
         stored + (chunks.length - i)) by
    intro i db stored
    exact H (chunks.length - i) i db stored le_rfl
  intro n
  induction n with
  | zero =>
    intro i db stored hle
    rw [embedStoreLoop, dif_neg (by omega : ¬ i < chunks.length)]
    rw [List.drop_eq_nil_iff.mpr (by omega), List.mapIdx_nil, List.append_nil]
    have h0 : chunks.length - i = 0 := by omega
    rw [h0, Nat.add_zero]
  | succ n ih =>
    intro i db stored hle
    by_cases hi : i < chunks.length
    · rw [embedStoreLoop, dif_pos hi, ih (i + 5) _ _ (by omega)]
      have hsplit : chunks.drop i = (chunks.drop i).take 5 ++ chunks.drop (i + 5) := by
        rw [← List.drop_drop, List.take_append_drop]
      have hgoal2 : stored + ((chunks.drop i).take 5).length + (chunks.length - (i + 5)) =
          stored + (chunks.length - i) := by
        have : ((chunks.drop i).take 5).length = min 5 (chunks.length - i) := by
          rw [List.length_take, List.length_drop]
        omega
      refine Prod.ext ?_ hgoal2
      show db ++ _ ++ _ = db ++ _
      rw [List.append_assoc]
      congr 1
      conv_rhs => rw [hsplit, List.mapIdx_append]
      congr 1
      by_cases h5 : 5 ≤ chunks.length - i
      · have hlen : ((chunks.drop i).take 5).length = 5 := by
          rw [List.length_take, List.length_drop]
          omega
        rw [hlen]
        congr 1
        funext j t
        have harg : i + 5 + j = i + (j + 5) := by omega
        rw [harg]
      · have hdrop : chunks.drop (i + 5) = [] := List.drop_eq_nil_iff.mpr (by omega)
        rw [hdrop, List.mapIdx_nil, List.mapIdx_nil]
    · rw [embedStoreLoop, dif_neg hi]
      rw [List.drop_eq_nil_iff.mpr (by omega), List.mapIdx_nil, List.append_nil]
      have h0 : chunks.length - i = 0 := by omega
      rw [h0, Nat.add_zero]

/-- The chunk-table state after `ingest_document`: the prior table with one
record per chunk appended, indexed from 0 in source-text order. -/
theorem ingest_document_fst (E : List Char → List ℚ) (T : List Char → Nat)
    (text : List Char) (pc : Nat) (doc ten : String) (db : List DocumentChunk) :
    (ingest_document E T text pc doc ten db).1 =
      db ++ (rag_split_text text).mapIdx
        (fun j t => mkChunkRecord T doc ten (rag_split_text text).length pc j t (E t)) := by
  simp only [ingest_document, _embed_and_store_chunks]
  rw [embedStoreLoop_spec]
  simp only [List.drop_zero]
  congr 1
  congr 1
  funext j t
  rw [Nat.zero_add]

/-- The statistics returned by `ingest_document`: both counts equal the number
of chunks the splitter produced. -/
theorem ingest_document_stats (E : List Char → List ℚ) (T : List Char → Nat)
    (text : List Char) (pc : Nat) (doc ten : String) (db : List DocumentChunk) :
    (ingest_document E T text pc doc ten db).2.total_chunks = (rag_split_text text).length ∧
    (ingest_document E T text pc doc ten db).2.stored_chunks = (rag_split_text text).length := by
  simp only [ingest_document, _embed_and_store_chunks]
  rw [embedStoreLoop_spec]
  simp

/-- Records built over an index enumeration all carrying the target document
id survive the document filter unchanged. -/
theorem filter_mapIdx_doc (chunks : List (List Char)) (doc : String)
    (f : Nat → List Char → DocumentChunk) (hf : ∀ j t, (f j t).document_id = doc) :
    (chunks.mapIdx f).filter (fun c => c.document_id == doc) = chunks.mapIdx f :=
  List.filter_eq_self.mpr (fun r hr => by
    rw [List.mapIdx_eq_enum_map] at hr
    obtain ⟨⟨j, t⟩, _, rfl⟩ := List.mem_map.mp hr
    simp [Function.uncurry, hf])

/-- A table whose rows all carry other document ids is emptied by the document
filter. -/
theorem filter_doc_nil {db : List DocumentChunk} {doc : String}
    (hdb : ∀ c ∈ db, c.document_id ≠ doc) :
    db.filter (fun c => c.document_id == doc) = [] :=
  List.filter_eq_nil_iff.mpr (fun c hc => by simp [hdb c hc])

/-- The records appended by the pipeline all carry the ingested document's
id, so the document filter keeps all of them. -/
theorem filter_mapIdx_mkChunkRecord (E : List Char → List ℚ) (T : List Char → Nat)
    (chunks : List (List Char)) (doc ten : String) (n pc : Nat) :
    (chunks.mapIdx (fun j t => mkChunkRecord T doc ten n pc j t (E t))).filter
        (fun c => c.document_id == doc) =
      chunks.mapIdx (fun j t => mkChunkRecord T doc ten n pc j t (E t)) :=
  filter_mapIdx_doc chunks doc _ (fun _ _ => rfl)

/-- Claim C5: a successful ingestion of a document whose chunker yields N
chunks stores chunk records whose `chunk_index` values form exactly the
gapless range `[0, N)` in source-text order, and returns
`total_chunks = stored_chunks = N`. -/
theorem docproc_C5 (E : List Char → List ℚ) (T : List Char → Nat) (text : List Char)
    (pc : Nat) (doc ten : String) (db : List DocumentChunk)
    (hdb : ∀ c ∈ db, c.document_id ≠ doc) :
    (((ingest_document E T text pc doc ten db).1.filter
        (fun c => c.document_id == doc)).map (fun c => c.chunk_index) =
      List.range (rag_split_text text).length) ∧
    (ingest_document E T text pc doc ten db).2.total_chunks =
      (rag_split_text text).length ∧
    (ingest_document E T text pc doc ten db).2.stored_chunks =
      (rag_split_text text).length := by
  obtain ⟨h1, h2⟩ := ingest_document_stats E T text pc doc ten db
  refine ⟨?_, h1, h2⟩
  rw [ingest_document_fst, List.filter_append, filter_doc_nil hdb, List.nil_append,
    filter_mapIdx_mkChunkRecord, List.mapIdx_eq_enum_map, List.map_map]
  exact (List.map_congr_left (fun p _ => rfl)).trans (List.enum_map_fst _)

/-- Witness for C5 at a concrete input: ingesting a two-character text into an
empty table. -/
theorem docproc_C5_witness :
    (∀ c ∈ ([] : List DocumentChunk), c.document_id ≠ "d1") ∧
    ((((ingest_document exEmbed exTok ['h', 'i'] 1 "d1" "t1" []).1.filter
        (fun c => c.document_id == "d1")).map (fun c => c.chunk_index) =
      List.range (rag_split_text ['h', 'i']).length) ∧
     (ingest_document exEmbed exTok ['h', 'i'] 1 "d1" "t1" []).2.total_chunks =
       (rag_split_text ['h', 'i']).length ∧
     (ingest_document exEmbed exTok ['h', 'i'] 1 "d1" "t1" []).2.stored_chunks =
       (rag_split_text ['h', 'i']).length) :=
  ⟨by simp, docproc_C5 exEmbed exTok ['h', 'i'] 1 "d1" "t1" [] (by simp)⟩

/-- Claim C2 fails as stated: running the pipeline twice on the same
`(tenant_id, document_id, text)` does not leave the same stored chunks as one
run — here a document whose text chunks to one piece holds one chunk record
after one run and two after two runs. -/
theorem docproc_C2_counterexample :
    ((ingest_document exEmbed exTok ['h', 'i'] 1 "d1" "t1"
        (ingest_document exEmbed exTok ['h', 'i'] 1 "d1" "t1" []).1).1.filter
      (fun c => c.document_id == "d1")).length = 2 ∧
    ((ingest_document exEmbed exTok ['h', 'i'] 1 "d1" "t1" []).1.filter
      (fun c => c.document_id == "d1")).length = 1 := by
  constructor
  · rw [ingest_document_fst, ingest_document_fst, List.nil_append, List.filter_append,
      filter_mapIdx_mkChunkRecord,
      List.length_append, List.length_mapIdx]
    decide
  · rw [ingest_document_fst, List.nil_append,
      filter_mapIdx_mkChunkRecord, List.length_mapIdx]
    decide

/-- Claim C2 as amended: the pipeline performs no delete-or-upsert of its
prior output — re-running the ingestion for the same `(tenant_id,
document_id, text)` appends a second copy of every chunk record, so the
stored chunk count for the document after two runs is `2 * N`, twice the
count after one run. -/
theorem docproc_C2 (E : List Char → List ℚ) (T : List Char → Nat) (text : List Char)
    (pc : Nat) (doc ten : String) (db : List DocumentChunk)
    (hdb : ∀ c ∈ db, c.document_id ≠ doc) :
    ((ingest_document E T text pc doc ten
        (ingest_document E T text pc doc ten db).1).1.filter
      (fun c => c.document_id == doc)).length = 2 * (rag_split_text text).length := by
  rw [ingest_document_fst, ingest_document_fst, List.append_assoc, List.filter_append,
    filter_doc_nil hdb, List.nil_append, List.filter_append,
    filter_mapIdx_mkChunkRecord,
    List.length_append, List.length_mapIdx]
  omega

/-- Witness for C2 (amended) at a concrete input. -/
theorem docproc_C2_witness :
    ((ingest_document exEmbed exTok ['h', 'i'] 1 "d1" "t1"
        (ingest_document exEmbed exTok ['h', 'i'] 1 "d1" "t1" []).1).1.filter
      (fun c => c.document_id == "d1")).length = 2 * (rag_split_text ['h', 'i']).length :=
  docproc_C2 exEmbed exTok ['h', 'i'] 1 "d1" "t1" [] (by simp)

/-! ## Chunker lemmas for the 2,500-character scenario

The scenario text is a single unbroken 2,500-character run (no separator
characters), for which the splitter degenerates to the character-level
sliding window: the lemmas below track the merge loop through its fill /
emit / final-flush phases. -/

/-- A list that starts with a character different from `c` is never a prefix
of a uniform run of `c`. -/
theorem isPrefixOf_replicate_false {c0 : Char} {rest : List Char} {c : Char}
    (hne : (c0 == c) = false) (m : Nat) :
    (c0 :: rest).isPrefixOf (List.replicate m c) = false := by
  cases m with
  | zero => rfl
  | succ m =>
    rw [List.replicate_succ]
    show ((c0 == c) && rest.isPrefixOf (List.replicate m c)) = false
    rw [hne, Bool.false_and]

/-- A separator that is a prefix of no uniform run of `c` does not occur in a
uniform run of `c`. -/
theorem containsSubstring_replicate_false (s : List Char) (c : Char)
    (h : ∀ m : Nat, s.isPrefixOf (List.replicate m c) = false) (n : Nat) :
    containsSubstring s (List.replicate n c) = false := by
  induction n with
  | zero =>
    cases s with
    | nil => exact absurd (h 0) (by simp [List.isPrefixOf])
    | cons a as => rfl
  | succ n ih =>
    rw [List.replicate_succ]
    show (s.isPrefixOf (c :: List.replicate n c) || containsSubstring s (List.replicate n c)) = false
    have h1 : s.isPrefixOf (c :: List.replicate n c) = false := by
      rw [← List.replicate_succ]
      exact h (n + 1)
    rw [h1, ih, Bool.or_self]

/-- On a uniform run of the letter a, none of the four non-empty configured
separators occurs, so separator selection falls through to the empty
separator with no lower-priority separators left. -/
theorem chooseSeparator_replicate (n : Nat) :
    chooseSeparator ragSeparators (List.replicate n 'a') = ([], []) := by
  have h1 : containsSubstring ['\n', '\n'] (List.replicate n 'a') = false :=
    containsSubstring_replicate_false _ _ (isPrefixOf_replicate_false (by decide)) n
  have h2 : containsSubstring ['\n'] (List.replicate n 'a') = false :=
    containsSubstring_replicate_false _ _ (isPrefixOf_replicate_false (by decide)) n
  have h3 : containsSubstring ['.', ' '] (List.replicate n 'a') = false :=
    containsSubstring_replicate_false _ _ (isPrefixOf_replicate_false (by decide)) n
  have h4 : containsSubstring [' '] (List.replicate n 'a') = false :=
    containsSubstring_replicate_false _ _ (isPrefixOf_replicate_false (by decide)) n
  unfold chooseSeparator ragSeparators
  simp [chooseSeparatorGo, h1, h2, h3, h4]

/-- Splitting a uniform run on the empty separator yields its characters. -/
theorem splitTextWithSep_empty_replicate (n : Nat) :
    splitTextWithSep [] (List.replicate n 'a') = List.replicate n ['a'] := by
  simp [splitTextWithSep, List.filter_replicate]

/-- When every fragment is strictly below the chunk size, the processing loop
reduces to one merge of the accumulated and remaining fragments. -/
theorem processSplitsAux_allGood (chunkSize : Nat)
    (mergeFn : List (List Char) → List (List Char)) (noNew : Bool)
    (recurse : List Char → List (List Char)) :
    ∀ (splits good : List (List Char)), (∀ s ∈ splits, s.length < chunkSize) →
      processSplitsAux chunkSize mergeFn noNew recurse splits good =
        if (good ++ splits).isEmpty then [] else mergeFn (good ++ splits) := by
  intro splits
  induction splits with
  | nil => intro good _; simp [processSplitsAux]
  | cons s rest ih =>
    intro good hall
    rw [processSplitsAux, if_pos (hall s (by simp)),
      ih (good ++ [s]) (fun x hx => hall x (by simp [hx]))]
    have hassoc : (good ++ [s]) ++ rest = good ++ (s :: rest) := by simp
    rw [hassoc]

/-- Joining uniform one-character fragments with the empty separator
concatenates them into a uniform run. -/
theorem pyJoin_nil_replicate (t : Nat) :
    pyJoin [] (List.replicate t ['a']) = List.replicate t 'a' := by
  induction t with
  | zero => rfl
  | succ t ih =>
    cases t with
    | zero => rfl
    | succ t0 =>
      rw [List.replicate_succ]
      show ['a'] ++ [] ++ pyJoin [] (List.replicate (t0 + 1) ['a']) = _
      rw [ih]
      simp [List.replicate_succ]

/-- Stripping whitespace from a uniform run of the letter a is the identity. -/
theorem pyStrip_replicate (t : Nat) :
    pyStrip (List.replicate t 'a') = List.replicate t 'a' := by
  have hdw : ∀ m, (List.replicate m 'a').dropWhile Char.isWhitespace =
      List.replicate m 'a' := by
    intro m
    cases m with
    | zero => rfl
    | succ m =>
      rw [List.replicate_succ, List.dropWhile_cons, if_neg (by decide)]
  unfold pyStrip
  rw [hdw, List.reverse_replicate, hdw, List.reverse_replicate]

/-- Joining a non-empty window of uniform fragments produces the uniform
chunk. -/
theorem joinDocs_replicate (t : Nat) (ht : 0 < t) :
    joinDocs [] (List.replicate t ['a']) = some (List.replicate t 'a') := by
  obtain ⟨t0, rfl⟩ : ∃ t0, t = t0 + 1 := ⟨t - 1, by omega⟩
  simp only [joinDocs, pyJoin_nil_replicate, pyStrip_replicate]
  rw [List.replicate_succ]
  rfl

/-- The overlap pop loop on a uniform window: it pops front fragments until
the window total is at most the 200-character overlap. -/
theorem popLoop_replicate : ∀ t : Nat,
    popLoop 1000 200 0 1 (List.replicate t ['a']) t =
      (List.replicate (min t 200) ['a'], min t 200) := by
  intro t
  induction t with
  | zero => rfl
  | succ t ih =>
    rw [List.replicate_succ]
    simp only [popLoop]
    by_cases h2 : t + 1 > 200
    · rw [if_pos (Or.inl h2)]
      simp only [List.length_replicate, List.length_singleton, ite_self]
      have harg : t + 1 - 1 = t := by omega
      rw [harg, ih]
      have hmin : min t 200 = min (t + 1) 200 := by omega
      rw [hmin]
    · rw [if_neg (by omega)]
      have hmin : min (t + 1) 200 = t + 1 := by omega
      rw [hmin, List.replicate_succ]

/-- Fill phase of the merge loop: as long as the chunk size is not exceeded,
incoming one-character fragments are appended to the window. -/
theorem merge_fill (k : Nat) : ∀ (t m : Nat) (docs : List (List Char)), t + k ≤ 1000 →
    mergeSplitsAux 1000 200 [] (List.replicate (k + m) ['a']) docs
      (List.replicate t ['a']) t =
    mergeSplitsAux 1000 200 [] (List.replicate m ['a']) docs
      (List.replicate (t + k) ['a']) (t + k) := by
  induction k with
  | zero =>
    intro t m docs _
    rw [Nat.zero_add, Nat.add_zero]
  | succ k ih =>
    intro t m docs h
    have hsum : k + 1 + m = (k + m) + 1 := by omega
    rw [hsum, List.replicate_succ]
    simp only [mergeSplitsAux, List.length_singleton, List.length_nil,
      List.length_replicate, ite_self]
    rw [if_neg (by omega)]
    rw [← List.replicate_succ']
    have harith : t + 1 + 0 = t + 1 := by omega
    rw [harith, ih (t + 1) m docs (by omega)]
    have harith2 : t + 1 + k = t + (k + 1) := by omega
    rw [harith2]

set_option maxRecDepth 8000 in
/-- Emit phase of the merge loop: at a full 1000-character window, the next
fragment triggers emission of the window as a chunk and the window shrinks to
the 200-character overlap plus the new fragment. -/
theorem merge_emit (m : Nat) (docs : List (List Char)) :
    mergeSplitsAux 1000 200 [] (List.replicate (m + 1) ['a']) docs
      (List.replicate 1000 ['a']) 1000 =
    mergeSplitsAux 1000 200 [] (List.replicate m ['a'])
      (docs ++ [List.replicate 1000 'a']) (List.replicate 201 ['a']) 201 := by
  rw [List.replicate_succ]
  simp only [mergeSplitsAux, List.length_singleton, List.length_nil,
    List.length_replicate, ite_self]
  rw [if_pos (by omega)]
  rw [if_pos (by omega : (1000:Nat) > 0), if_pos (by omega : (1000:Nat) > 0)]
  rw [joinDocs_replicate 1000 (by omega), popLoop_replicate 1000]
  have hmin : min 1000 200 = 200 := by omega
  rw [hmin]
  simp only [List.length_replicate, ite_self]
  rw [← List.replicate_succ']

/-- Final flush of the merge loop: the remaining non-empty window is joined
into the last chunk. -/
theorem merge_final (t : Nat) (ht : 0 < t) (docs : List (List Char)) :
    mergeSplitsAux 1000 200 [] [] docs (List.replicate t ['a']) t =
      docs ++ [List.replicate t 'a'] := by
  simp only [mergeSplitsAux]
  rw [joinDocs_replicate t ht]

set_option maxRecDepth 8000 in
/-- The configured splitter on the 2,500-character uniform run: exactly the
three sliding-window chunks covering positions 0-999, 800-1799 and
1600-2499. -/
theorem rag_split_replicate_2500 :
    rag_split_text (List.replicate 2500 'a') =
      [List.replicate 1000 'a', List.replicate 1000 'a', List.replicate 900 'a'] := by
  unfold rag_split_text
  rw [show ragSeparators.length = 5 from rfl]
  rw [splitTextAux]
  rw [chooseSeparator_replicate]
  simp only [splitTextWithSep_empty_replicate, List.isEmpty_nil]
  rw [processSplitsAux_allGood 1000 _ _ _ (List.replicate 2500 ['a']) []
    (fun s hs => by rw [List.eq_of_mem_replicate hs]; decide)]
  rw [List.nil_append]
  rw [if_neg (by rw [show (2500:Nat) = 2499 + 1 from rfl, List.replicate_succ]; simp)]
  unfold mergeSplits
  show mergeSplitsAux 1000 200 [] (List.replicate (1000 + 1500) ['a']) []
    (List.replicate 0 ['a']) 0 = _
  rw [merge_fill 1000 0 1500 [] (by omega)]
  rw [Nat.zero_add]
  rw [show (1500:Nat) = 1499 + 1 from rfl, merge_emit 1499 [], List.nil_append]
  rw [show (1499:Nat) = 799 + 700 from rfl, merge_fill 799 201 700 _ (by omega)]
  rw [show (201:Nat) + 799 = 1000 from rfl]
  rw [show (700:Nat) = 699 + 1 from rfl, merge_emit 699 _]
  rw [show (699:Nat) = 699 + 0 from rfl, merge_fill 699 201 0 _ (by omega)]
  rw [show (201:Nat) + 699 = 900 from rfl]
  show mergeSplitsAux 1000 200 [] [] _ (List.replicate 900 ['a']) 900 = _
  rw [merge_final 900 (by omega)]
  rfl

set_option maxRecDepth 8000 in
/-- Claim C8: chunking the 2,500-character scenario text (a single unbroken
run with no separator characters, the case in which the configured splitter
acts as an exact sliding window) with chunk size 1000 and overlap 200 yields
exactly 3 chunks, and the first 200 characters of the second chunk equal the
last 200 characters of the first chunk. -/
theorem docproc_C8 :
    (rag_split_text (List.replicate 2500 'a')).length = 3 ∧
    ((rag_split_text (List.replicate 2500 'a')).getD 1 []).take 200 =
      ((rag_split_text (List.replicate 2500 'a')).getD 0 []).drop
        (((rag_split_text (List.replicate 2500 'a')).getD 0 []).length - 200) := by
  rw [rag_split_replicate_2500]
  refine ⟨rfl, ?_⟩
  show (List.replicate 1000 'a').take 200 =
    (List.replicate 1000 'a').drop ((List.replicate 1000 'a').length - 200)
  rw [List.take_replicate, List.length_replicate, List.drop_replicate]
  norm_num

end DocProc
